import Mathlib

/-!
Verification of the loam_velodyne synchronization / convention-adaptation /
pose-composition layer against its design specification.

The development shallowly embeds the two source files
`src/lib/LaserOdometry.cpp` and `src/lib/TransformMaintenance.cpp`:

* Timestamps (`ros::Time` values compared through `toSec()`) are embedded as
  exact rationals `ℚ`; the 0.005 s skew tolerance becomes the literal
  `5/1000 : ℚ`.
* The six stream slots of `LaserOdometry` (flags and timestamps) become a
  record `OdomState`; the subscription handlers, `reset`, `hasNewData`,
  `process` and the publication decisions of `publishResult` are transcribed
  directly from the source.
* Orientations are embedded over `ℝ`: quaternion components, the fixed
  component permutations applied by the handlers, the standard
  rotation-matrix-to-Euler extraction (`tf::Matrix3x3::getRPY`) and the
  roll/pitch/yaw quaternion constructor
  (`tf::createQuaternionMsgFromRollPitchYaw`), both modelled from the spec's
  description of those external library calls (§4.1).
* `BasicLaserOdometry` and `BasicTransformMaintenance` are not part of the
  provided sources; the few members used (frame counter, pose store, the
  correction composition) are modelled from the spec, each marked
  `Modelled from the spec:` in its doc comment.
-/

namespace LoamVelodyne

/-! ## Stream synchronization gate (`LaserOdometry`) -/

/-- The per-stream slots of `LaserOdometry`: the six "new data" flags and the
six arrival timestamps (`_new…` / `_time…` members), plus the frame counter
kept by the basic odometry layer. Timestamps are exact rationals (seconds). -/
structure OdomState where
  newCornerPointsSharp : Bool
  newCornerPointsLessSharp : Bool
  newSurfPointsFlat : Bool
  newSurfPointsLessFlat : Bool
  newLaserCloudFullRes : Bool
  newImuTrans : Bool
  timeCornerPointsSharp : ℚ
  timeCornerPointsLessSharp : ℚ
  timeSurfPointsFlat : ℚ
  timeSurfPointsLessFlat : ℚ
  timeLaserCloudFullRes : ℚ
  timeImuTrans : ℚ
  frameCount : ℕ
deriving DecidableEq

/-- `LaserOdometry::hasNewData` (LaserOdometry.cpp:298-307): all six flags set
and each of the five other timestamps within strictly less than 0.005 s of
the surf-points-less-flat reference timestamp. -/
def hasNewData (s : OdomState) : Bool :=
  s.newCornerPointsSharp && s.newCornerPointsLessSharp && s.newSurfPointsFlat &&
  s.newSurfPointsLessFlat && s.newLaserCloudFullRes && s.newImuTrans &&
  decide (|s.timeCornerPointsSharp - s.timeSurfPointsLessFlat| < 5/1000) &&
  decide (|s.timeCornerPointsLessSharp - s.timeSurfPointsLessFlat| < 5/1000) &&
  decide (|s.timeSurfPointsFlat - s.timeSurfPointsLessFlat| < 5/1000) &&
  decide (|s.timeLaserCloudFullRes - s.timeSurfPointsLessFlat| < 5/1000) &&
  decide (|s.timeImuTrans - s.timeSurfPointsLessFlat| < 5/1000)

/-- `LaserOdometry::reset` (LaserOdometry.cpp:205-213): clears all six
"new data" flags. -/
def reset (s : OdomState) : OdomState :=
  { s with
    newCornerPointsSharp := false
    newCornerPointsLessSharp := false
    newSurfPointsFlat := false
    newSurfPointsLessFlat := false
    newLaserCloudFullRes := false
    newImuTrans := false }

/-- `LaserOdometry::laserCloudSharpHandler` (LaserOdometry.cpp:215-224):
records the arrival timestamp and sets the stream's flag (the point-cloud
payload itself is outside the modelled state). -/
def laserCloudSharpHandler (t : ℚ) (s : OdomState) : OdomState :=
  { s with timeCornerPointsSharp := t, newCornerPointsSharp := true }

/-- `LaserOdometry::laserCloudLessSharpHandler` (LaserOdometry.cpp:226-235). -/
def laserCloudLessSharpHandler (t : ℚ) (s : OdomState) : OdomState :=
  { s with timeCornerPointsLessSharp := t, newCornerPointsLessSharp := true }

/-- `LaserOdometry::laserCloudFlatHandler` (LaserOdometry.cpp:237-246). -/
def laserCloudFlatHandler (t : ℚ) (s : OdomState) : OdomState :=
  { s with timeSurfPointsFlat := t, newSurfPointsFlat := true }

/-- `LaserOdometry::laserCloudLessFlatHandler` (LaserOdometry.cpp:248-257). -/
def laserCloudLessFlatHandler (t : ℚ) (s : OdomState) : OdomState :=
  { s with timeSurfPointsLessFlat := t, newSurfPointsLessFlat := true }

/-- `LaserOdometry::laserCloudFullResHandler` (LaserOdometry.cpp:259-268). -/
def laserCloudFullResHandler (t : ℚ) (s : OdomState) : OdomState :=
  { s with timeLaserCloudFullRes := t, newLaserCloudFullRes := true }

/-- `LaserOdometry::imuTransHandler` (LaserOdometry.cpp:270-278). -/
def imuTransHandler (t : ℚ) (s : OdomState) : OdomState :=
  { s with timeImuTrans := t, newImuTrans := true }

/-- Configuration used by `publishResult`: the `_ioRatio` throttle ratio
(a `uint16_t`, embedded as `ℕ`) and the `_outputTransforms` toggle. -/
structure OdomConfig where
  ioRatioCfg : ℕ
  outputTransforms : Bool
deriving DecidableEq

/-- Modelled from the spec: `BasicLaserOdometry::process` (not under `src/`).
The scan-matching update it performs is outside the spec's core (§1,
Excluded); on the synchronization-relevant state it completes one processing
cycle, which increments the frame counter (§3, Frame counter). -/
def basicOdomProcess (s : OdomState) : OdomState :=
  { s with frameCount := s.frameCount + 1 }

/-- The publications a completed `publishResult` call makes: the odometry
(pose) message, the optional tf transform broadcast, and the three heavy
point-cloud payloads. -/
structure OdomOutputs where
  poseMsg : Bool
  odomTransform : Bool
  cornerCloud : Bool
  surfCloud : Bool
  fullResCloud : Bool
deriving DecidableEq

/-- `LaserOdometry::publishResult` publication decisions
(LaserOdometry.cpp:319-353): the odometry message is always published, the tf
broadcast iff `_outputTransforms`, and the three clouds iff
`_ioRatio < 2 || frameCount() % _ioRatio == 1`. -/
def publishResult (cfg : OdomConfig) (s : OdomState) : OdomOutputs :=
  let heavy : Bool :=
    decide (cfg.ioRatioCfg < 2) || decide (s.frameCount % cfg.ioRatioCfg = 1)
  { poseMsg := true
    odomTransform := cfg.outputTransforms
    cornerCloud := heavy
    surfCloud := heavy
    fullResCloud := heavy }

/-- `LaserOdometry::process` (LaserOdometry.cpp:309-317): if `hasNewData()`
is false, return with nothing published and nothing changed; otherwise
`reset()` the flags, run the basic odometry processing, and publish. -/
def process (cfg : OdomConfig) (s : OdomState) : OdomState × Option OdomOutputs :=
  if hasNewData s then
    let s2 := basicOdomProcess (reset s)
    (s2, some (publishResult cfg s2))
  else
    (s, none)

/-- The externally triggered events of the odometry node: one arrival per
stream (carrying its timestamp) and one polling tick of the driver loop
(`spin`, LaserOdometry.cpp:280-296, which calls `process`). -/
inductive OdomEvent where
  | arriveSharp (t : ℚ)
  | arriveLessSharp (t : ℚ)
  | arriveFlat (t : ℚ)
  | arriveLessFlat (t : ℚ)
  | arriveFullRes (t : ℚ)
  | arriveImu (t : ℚ)
  | tick
deriving DecidableEq

/-- One event step of the odometry node. -/
def stepEvent (cfg : OdomConfig) (e : OdomEvent) (s : OdomState) : OdomState :=
  match e with
  | .arriveSharp t => laserCloudSharpHandler t s
  | .arriveLessSharp t => laserCloudLessSharpHandler t s
  | .arriveFlat t => laserCloudFlatHandler t s
  | .arriveLessFlat t => laserCloudLessFlatHandler t s
  | .arriveFullRes t => laserCloudFullResHandler t s
  | .arriveImu t => imuTransHandler t s
  | .tick => (process cfg s).1

/-- Run a sequence of events. -/
def runEvents (cfg : OdomConfig) (evs : List OdomEvent) (s : OdomState) : OdomState :=
  evs.foldl (fun st e => stepEvent cfg e st) s

/-- The six unconsumed flags, indexed. -/
def streamFlag (i : Fin 6) (s : OdomState) : Bool :=
  match i with
  | 0 => s.newCornerPointsSharp
  | 1 => s.newCornerPointsLessSharp
  | 2 => s.newSurfPointsFlat
  | 3 => s.newSurfPointsLessFlat
  | 4 => s.newLaserCloudFullRes
  | 5 => s.newImuTrans

/-- The stream an event delivers to (`none` for a polling tick). -/
def eventStream : OdomEvent → Option (Fin 6)
  | .arriveSharp _ => some 0
  | .arriveLessSharp _ => some 1
  | .arriveFlat _ => some 2
  | .arriveLessFlat _ => some 3
  | .arriveFullRes _ => some 4
  | .arriveImu _ => some 5
  | .tick => none

/-- Clear a single stream's flag, leaving everything else unchanged. -/
def clearFlag (i : Fin 6) (s : OdomState) : OdomState :=
  match i with
  | 0 => { s with newCornerPointsSharp := false }
  | 1 => { s with newCornerPointsLessSharp := false }
  | 2 => { s with newSurfPointsFlat := false }
  | 3 => { s with newSurfPointsLessFlat := false }
  | 4 => { s with newLaserCloudFullRes := false }
  | 5 => { s with newImuTrans := false }

/-- All six flags are set. -/
def allFlagsSet (s : OdomState) : Bool :=
  s.newCornerPointsSharp && s.newCornerPointsLessSharp && s.newSurfPointsFlat &&
  s.newSurfPointsLessFlat && s.newLaserCloudFullRes && s.newImuTrans

/-- All six flags are clear. -/
def allFlagsClear (s : OdomState) : Bool :=
  !s.newCornerPointsSharp && !s.newCornerPointsLessSharp && !s.newSurfPointsFlat &&
  !s.newSurfPointsLessFlat && !s.newLaserCloudFullRes && !s.newImuTrans

/-- The six timestamps as a list (for the pairwise-skew reading). -/
def timesList (s : OdomState) : List ℚ :=
  [s.timeCornerPointsSharp, s.timeCornerPointsLessSharp, s.timeSurfPointsFlat,
   s.timeSurfPointsLessFlat, s.timeLaserCloudFullRes, s.timeImuTrans]

/-- The readiness predicate as the spec sentence words it: all six flags set
and the maximum pairwise timestamp difference across all six streams at most
the tolerance (0.005 s). Written from the spec's words, for comparison with
the source's `hasNewData`. -/
def specReadyPairwise (s : OdomState) : Bool :=
  allFlagsSet s &&
  decide (∀ a ∈ timesList s, ∀ b ∈ timesList s, |a - b| ≤ 5/1000)

/-! ## `LaserOdometry::setup` parameter validation -/

/-- The parameters `LaserOdometry::setup` fetches; `none` means the parameter
server does not provide the value (the member keeps its default). Floats are
embedded as `ℚ`, the two integer parameters as `ℤ`. -/
structure OdomParams where
  scanPeriod : Option ℚ
  ioRatioParam : Option ℤ
  maxIterationsOdom : Option ℤ
  deltaTAbortOdom : Option ℚ
  deltaRAbortOdom : Option ℚ
  initFrame : Option String
  odomFrame : Option String
  loamOdomTopic : Option String
  lidarFrame : Option String
  outputTransformsParam : Option Bool
deriving DecidableEq

/-- The return value of `LaserOdometry::setup` (LaserOdometry.cpp:70-203).
Each provided numeric parameter is range-checked in turn and an out-of-range
value returns `false` at once (the early `return false` chain is transcribed
as short-circuit conjunction; each check only inspects its own parameter).
String and boolean parameters are stored without validation, and the final
statement returns `true`. -/
def odomSetup (p : OdomParams) : Bool :=
  (match p.scanPeriod with
   | some v => if v ≤ 0 then false else true
   | none => true) &&
  (match p.ioRatioParam with
   | some v => if v < 1 then false else true
   | none => true) &&
  (match p.maxIterationsOdom with
   | some v => if v < 1 then false else true
   | none => true) &&
  (match p.deltaTAbortOdom with
   | some v => if v ≤ 0 then false else true
   | none => true) &&
  (match p.deltaRAbortOdom with
   | some v => if v ≤ 0 then false else true
   | none => true)

/-! ## `TransformMaintenance::setup` -/

/-- The parameters `TransformMaintenance::setup` fetches: five topic/frame
name strings, none of which is validated. -/
structure MaintParams where
  loamOdomTopic : Option String
  mapOdomTopic : Option String
  lidarOdomTopic : Option String
  initFrame : Option String
  lidarFrame : Option String
deriving DecidableEq

/-- The topic/frame configuration of `TransformMaintenance`, with the
constructor defaults (TransformMaintenance.cpp:37-50). -/
structure MaintTopics where
  mapOdomTopic : String := "/aft_mapped_to_init"
  loamOdomTopic : String := "/laser_odom_to_init"
  lidarOdomTopic : String := "/integrated_to_init"
  lidarFrame : String := "/camera"
  initFrame : String := "/camera_init"
deriving DecidableEq

/-- `TransformMaintenance::setup` (TransformMaintenance.cpp:52-96): stores
any provided topic/frame names, advertises and subscribes, and returns
`true`; no parameter is rejected. -/
def maintSetup (p : MaintParams) : MaintTopics × Bool :=
  let c0 : MaintTopics := {}
  let c1 := match p.loamOdomTopic with
    | some v => { c0 with loamOdomTopic := v }
    | none => c0
  let c2 := match p.mapOdomTopic with
    | some v => { c1 with mapOdomTopic := v }
    | none => c1
  let c3 := match p.lidarOdomTopic with
    | some v => { c2 with lidarOdomTopic := v }
    | none => c2
  let c4 := match p.initFrame with
    | some v => { c3 with initFrame := v }
    | none => c3
  let c5 := match p.lidarFrame with
    | some v => { c4 with lidarFrame := v }
    | none => c4
  (c5, true)

/-! ## Frame convention adapter (orientations over `ℝ`) -/

/-- A quaternion as four real components `(x, y, z, w)`, in the component
order of `geometry_msgs::Quaternion` / `tf::Quaternion`. -/
structure Quat where
  x : ℝ
  y : ℝ
  z : ℝ
  w : ℝ

/-- Negation of a quaternion (the other representative of the same
rotation). -/
noncomputable def negQ (g : Quat) : Quat :=
  ⟨-g.x, -g.y, -g.z, -g.w⟩

/-- Rotation-matrix entry (0,0) of a unit quaternion. -/
noncomputable def m00 (g : Quat) : ℝ := 1 - 2*(g.y^2 + g.z^2)

/-- Rotation-matrix entry (0,1) of a unit quaternion. -/
noncomputable def m01 (g : Quat) : ℝ := 2*(g.x*g.y - g.z*g.w)

/-- Rotation-matrix entry (0,2) of a unit quaternion. -/
noncomputable def m02 (g : Quat) : ℝ := 2*(g.x*g.z + g.y*g.w)

/-- Rotation-matrix entry (1,0) of a unit quaternion. -/
noncomputable def m10 (g : Quat) : ℝ := 2*(g.x*g.y + g.z*g.w)

/-- Rotation-matrix entry (1,1) of a unit quaternion. -/
noncomputable def m11 (g : Quat) : ℝ := 1 - 2*(g.x^2 + g.z^2)

/-- Rotation-matrix entry (1,2) of a unit quaternion. -/
noncomputable def m12 (g : Quat) : ℝ := 2*(g.y*g.z - g.x*g.w)

/-- Rotation-matrix entry (2,0) of a unit quaternion. -/
noncomputable def m20 (g : Quat) : ℝ := 2*(g.x*g.z - g.y*g.w)

/-- Rotation-matrix entry (2,1) of a unit quaternion. -/
noncomputable def m21 (g : Quat) : ℝ := 2*(g.y*g.z + g.x*g.w)

/-- Rotation-matrix entry (2,2) of a unit quaternion. -/
noncomputable def m22 (g : Quat) : ℝ := 1 - 2*(g.x^2 + g.y^2)

/-- Two-argument arctangent with range `(-π, π]`, embedded as the argument of
the complex number `x + y·i`. -/
noncomputable def atan2 (y x : ℝ) : ℝ := Complex.arg (x + y * Complex.I)

/-- Clamp to `[-1, 1]` (the spec's "asin clamped to [-1,1]", §4.1). -/
noncomputable def clampUnit (t : ℝ) : ℝ := max (-1) (min 1 t)

/-- Roll, pitch and yaw angles. -/
structure EulerRPY where
  roll : ℝ
  pitch : ℝ
  yaw : ℝ

/-- Modelled from the spec: `tf::Matrix3x3::getRPY` (external geometry
library, §1 Excluded) — "the standard rotation-matrix-to-Euler formula" with
"atan2/asin clamped to [-1,1]" (§4.1): for the `Rz(yaw)·Ry(pitch)·Rx(roll)`
factorization, `pitch = -asin(m20)`, `roll = atan2(m21, m22)`,
`yaw = atan2(m10, m00)`. -/
noncomputable def getRPY (g : Quat) : EulerRPY :=
  { roll := atan2 (m21 g) (m22 g)
    pitch := -Real.arcsin (clampUnit (m20 g))
    yaw := atan2 (m10 g) (m00 g) }

/-- Modelled from the spec: `tf::createQuaternionMsgFromRollPitchYaw` /
`tf::Quaternion::setRPY` (external geometry library, §1 Excluded) — the
quaternion of the `Rz(yaw)·Ry(pitch)·Rx(roll)` rotation, built from the half
angles. -/
noncomputable def createQuaternionFromRPY (roll pitch yaw : ℝ) : Quat :=
  { x := Real.sin (roll/2) * Real.cos (pitch/2) * Real.cos (yaw/2) -
         Real.cos (roll/2) * Real.sin (pitch/2) * Real.sin (yaw/2)
    y := Real.cos (roll/2) * Real.sin (pitch/2) * Real.cos (yaw/2) +
         Real.sin (roll/2) * Real.cos (pitch/2) * Real.sin (yaw/2)
    z := Real.cos (roll/2) * Real.cos (pitch/2) * Real.sin (yaw/2) -
         Real.sin (roll/2) * Real.sin (pitch/2) * Real.cos (yaw/2)
    w := Real.cos (roll/2) * Real.cos (pitch/2) * Real.cos (yaw/2) +
         Real.sin (roll/2) * Real.sin (pitch/2) * Real.sin (yaw/2) }

/-- The inbound component permutation applied by both handlers:
`tf::Quaternion(geoQuat.z, -geoQuat.x, -geoQuat.y, geoQuat.w)`
(TransformMaintenance.cpp:102, 148). -/
noncomputable def permIn (g : Quat) : Quat := ⟨g.z, -g.x, -g.y, g.w⟩

/-- The angle triple `(rx, ry, rz)` that `laserOdometryHandler` passes to
`updateOdometry` (TransformMaintenance.cpp:100-107): RPY extraction of the
permuted quaternion, re-expressed as `(-pitch, -yaw, roll)`. -/
noncomputable def laserOdometryHandlerAngles (g : Quat) : ℝ × ℝ × ℝ :=
  let e := getRPY ⟨g.z, -g.x, -g.y, g.w⟩
  (-e.pitch, -e.yaw, e.roll)

/-- The angle triple `(rx, ry, rz)` that `odomAftMappedHandler` passes to
`updateMappingTransform` (TransformMaintenance.cpp:146-153). -/
noncomputable def odomAftMappedHandlerAngles (g : Quat) : ℝ × ℝ × ℝ :=
  let e := getRPY ⟨g.z, -g.x, -g.y, g.w⟩
  (-e.pitch, -e.yaw, e.roll)

/-- The spec's inbound adapter `toInternal` (§4.1 steps 1-3): permute the
quaternion components to `(qz, -qx, -qy, qw)`, extract roll/pitch/yaw, and
return `(rx, ry, rz) = (-pitch, -yaw, roll)`. -/
noncomputable def toInternal (g : Quat) : ℝ × ℝ × ℝ :=
  let e := getRPY (permIn g)
  (-e.pitch, -e.yaw, e.roll)

/-- The spec's outbound adapter `toOutput` (§4.1 step 4): build a quaternion
from `(rz, -rx, -ry)` and remap its components to `(-qy, -qz, qx, qw)`. -/
noncomputable def toOutput (rx ry rz : ℝ) : Quat :=
  let g := createQuaternionFromRPY rz (-rx) (-ry)
  ⟨-g.y, -g.z, g.x, g.w⟩

/-- The outbound quaternion built by the corrected-pose publisher
(TransformMaintenance.cpp:111-120) from the mapped angles
`(a0, a1, a2) = transformMapped()[0..2]`. -/
noncomputable def maintOutputQuat (a0 a1 a2 : ℝ) : Quat :=
  let g := createQuaternionFromRPY a2 (-a0) (-a1)
  ⟨-g.y, -g.z, g.x, g.w⟩

/-- The outbound quaternion built by the odometry publisher
(LaserOdometry.cpp:322-330) from `transformSum()` angles
`(rot_x, rot_y, rot_z)`. -/
noncomputable def odometryOutputQuat (rx ry rz : ℝ) : Quat :=
  let g := createQuaternionFromRPY rz (-rx) (-ry)
  ⟨-g.y, -g.z, g.x, g.w⟩

/-- The full convention round-trip `toOutput ∘ toInternal` of §4.1. -/
noncomputable def roundTrip (g : Quat) : Quat :=
  toOutput (toInternal g).1 (toInternal g).2.1 (toInternal g).2.2

/-! ## Pose composer (`TransformMaintenance` state) -/

/-- A 3-vector. -/
abbrev V3 := ℝ × ℝ × ℝ

/-- Hamilton product of two quaternions. -/
noncomputable def quatMul (a b : Quat) : Quat :=
  ⟨a.w*b.x + a.x*b.w + a.y*b.z - a.z*b.y,
   a.w*b.y - a.x*b.z + a.y*b.w + a.z*b.x,
   a.w*b.z + a.x*b.y - a.y*b.x + a.z*b.w,
   a.w*b.w - a.x*b.x - a.y*b.y - a.z*b.z⟩

/-- Conjugate (inverse for a unit quaternion). -/
noncomputable def quatConj (a : Quat) : Quat := ⟨-a.x, -a.y, -a.z, a.w⟩

/-- Apply the rotation of a unit quaternion to a vector, through its rotation
matrix. -/
noncomputable def rotateVec (g : Quat) (v : V3) : V3 :=
  (m00 g * v.1 + m01 g * v.2.1 + m02 g * v.2.2,
   m10 g * v.1 + m11 g * v.2.1 + m12 g * v.2.2,
   m20 g * v.1 + m21 g * v.2.1 + m22 g * v.2.2)

/-- A rigid transform: a rotation (unit quaternion) and a translation. The
spec's recommended pose value type (§9). -/
structure Rigid where
  rot : Quat
  pos : V3

/-- Composition of rigid transforms: rotations multiply, the translation is
the first transform's rotation applied to the second translation plus the
first translation (§4.3). -/
noncomputable def rigidCompose (a b : Rigid) : Rigid :=
  ⟨quatMul a.rot b.rot,
   (let r := rotateVec a.rot b.pos
    (r.1 + a.pos.1, r.2.1 + a.pos.2.1, r.2.2 + a.pos.2.2))⟩

/-- Inverse of a rigid transform. -/
noncomputable def rigidInverse (a : Rigid) : Rigid :=
  ⟨quatConj a.rot,
   rotateVec (quatConj a.rot) (-a.pos.1, -a.pos.2.1, -a.pos.2.2)⟩

/-- The identity rigid transform: the value a zero-initialized pose store
denotes (zero angles and zero translation). -/
noncomputable def rigidIdentity : Rigid := ⟨⟨0, 0, 0, 1⟩, (0, 0, 0)⟩

/-- Modelled from the spec: the pose store of `BasicTransformMaintenance`
(not under `src/`) — the current raw odometry pose (`_transformSum`) and the
correction baseline pair (`_transformBefMapped`, `_transformAftMapped`, the
pre- and post-correction poses of §4.3), all zero-initialized. Orientations are
kept as the equivalent output-convention unit quaternions (§3 allows either
representation; §9 asks for an explicit rigid-transform value type). -/
structure MaintState where
  transformSum : Rigid
  transformBefMapped : Rigid
  transformAftMapped : Rigid

/-- The zero-initialized maintenance state: identity everywhere. -/
noncomputable def initMaintState : MaintState :=
  ⟨rigidIdentity, rigidIdentity, rigidIdentity⟩

/-- Modelled from the spec: `BasicTransformMaintenance::updateOdometry` (not
under `src/`) — store the received internal angles `(rx, ry, rz)` and
position as the raw pose, the angles as their equivalent output-convention
quaternion. -/
noncomputable def updateOdometryModel (st : MaintState) (rx ry rz : ℝ) (p : V3) :
    MaintState :=
  { st with transformSum := ⟨toOutput rx ry rz, p⟩ }

/-- Modelled from the spec: `BasicTransformMaintenance::transformAssociateToMap`
(not under `src/`) — the corrected pose is the raw pose transformed by the
retained correction offset `aft ∘ bef⁻¹` (§4.3: offset rotation composed with
the raw rotation; translation is the offset rotation applied to the raw
translation plus the offset translation). -/
noncomputable def transformAssociateToMap (st : MaintState) : Rigid :=
  rigidCompose (rigidCompose st.transformAftMapped (rigidInverse st.transformBefMapped))
    st.transformSum

/-- `TransformMaintenance::laserOdometryHandler` (TransformMaintenance.cpp:
98-130) on the modelled state: extract the internal angles from the inbound
quaternion (source lines 100-107), store them with the position
(`updateOdometry`, modelled), compose with the retained correction
(`transformAssociateToMap`, modelled), and emit the mapped pose: the outbound
quaternion built from the mapped angles (source lines 111-120) and the mapped
position (source lines 121-123). -/
noncomputable def laserOdometryHandlerRun (st : MaintState) (g : Quat) (p : V3) :
    Quat × V3 :=
  let a := laserOdometryHandlerAngles g
  let st2 := updateOdometryModel st a.1 a.2.1 a.2.2 p
  let mapped := transformAssociateToMap st2
  let ma := toInternal mapped.rot
  (maintOutputQuat ma.1 ma.2.1 ma.2.2, mapped.pos)

/-! ## Concrete states used by counterexamples and witnesses -/

/-- A gate state: all six flags set, timestamps as given, frame counter 0. -/
def gateState (t1 t2 t3 t4 t5 t6 : ℚ) : OdomState :=
  { newCornerPointsSharp := true
    newCornerPointsLessSharp := true
    newSurfPointsFlat := true
    newSurfPointsLessFlat := true
    newLaserCloudFullRes := true
    newImuTrans := true
    timeCornerPointsSharp := t1
    timeCornerPointsLessSharp := t2
    timeSurfPointsFlat := t3
    timeSurfPointsLessFlat := t4
    timeLaserCloudFullRes := t5
    timeImuTrans := t6
    frameCount := 0 }

/-- Sharp stream at +0.004 s, less-sharp at -0.004 s around the reference:
every anchored difference is below 0.005 s, yet the sharp/less-sharp pairwise
difference is 0.008 s. -/
def skewedState : OdomState := gateState (1/250) (-1/250) 0 0 0 0

/-- Sharp stream exactly 0.005 s from the reference: the maximum pairwise
difference equals the tolerance. -/
def boundaryState : OdomState := gateState (1/200) 0 0 0 0 0

/-- All streams arrived at the same instant. -/
def readyState : OdomState := gateState 0 0 0 0 0 0

/-- No stream has arrived yet. -/
def idleState : OdomState :=
  { newCornerPointsSharp := false
    newCornerPointsLessSharp := false
    newSurfPointsFlat := false
    newSurfPointsLessFlat := false
    newLaserCloudFullRes := false
    newImuTrans := false
    timeCornerPointsSharp := 0
    timeCornerPointsLessSharp := 0
    timeSurfPointsFlat := 0
    timeSurfPointsLessFlat := 0
    timeLaserCloudFullRes := 0
    timeImuTrans := 0
    frameCount := 0 }

/-- An idle-flag state at a given frame count. -/
def frameState (n : ℕ) : OdomState := { idleState with frameCount := n }

/-- A configuration with the given throttle ratio. -/
def cfgR (k : ℕ) : OdomConfig := ⟨k, true⟩

/-- `LaserOdometry::setup` parameters that are all absent. -/
def emptyOdomParams : OdomParams :=
  ⟨none, none, none, none, none, none, none, none, none, none⟩

/-- `TransformMaintenance::setup` parameters that are all absent. -/
def emptyMaintParams : MaintParams := ⟨none, none, none, none, none⟩

/-! ## Shared helper lemmas -/

/-- If any single stream flag is clear, the gate is not ready. -/
theorem hasNewData_eq_false_of_flag (s : OdomState) (i : Fin 6)
    (h : streamFlag i s = false) : hasNewData s = false := by
  fin_cases i <;> simp only [streamFlag] at h <;> simp [hasNewData, h]

/-- An event that does not deliver to stream `i` leaves a clear flag `i`
clear. -/
theorem streamFlag_stepEvent_false (cfg : OdomConfig) (e : OdomEvent) (i : Fin 6)
    (s : OdomState) (h : streamFlag i s = false) (he : eventStream e ≠ some i) :
    streamFlag i (stepEvent cfg e s) = false := by
  cases e with
  | tick =>
    by_cases hr : hasNewData s
    · have : (process cfg s).1 = basicOdomProcess (reset s) := by simp [process, hr]
      rw [stepEvent, this]
      fin_cases i <;> simp [streamFlag, basicOdomProcess, reset]
    · have : (process cfg s).1 = s := by simp [process, hr]
      rw [stepEvent, this]; exact h
  | arriveSharp t =>
    fin_cases i <;> simp_all [stepEvent, streamFlag, eventStream, laserCloudSharpHandler]
  | arriveLessSharp t =>
    fin_cases i <;> simp_all [stepEvent, streamFlag, eventStream, laserCloudLessSharpHandler]
  | arriveFlat t =>
    fin_cases i <;> simp_all [stepEvent, streamFlag, eventStream, laserCloudFlatHandler]
  | arriveLessFlat t =>
    fin_cases i <;> simp_all [stepEvent, streamFlag, eventStream, laserCloudLessFlatHandler]
  | arriveFullRes t =>
    fin_cases i <;> simp_all [stepEvent, streamFlag, eventStream, laserCloudFullResHandler]
  | arriveImu t =>
    fin_cases i <;> simp_all [stepEvent, streamFlag, eventStream, imuTransHandler]

/-! ## Helper lemmas for the orientation embedding -/

/-- Sine through the half angle. -/
theorem sin_half_double (x : ℝ) : Real.sin x = 2 * Real.sin (x/2) * Real.cos (x/2) := by
  have h := Real.sin_two_mul (x/2)
  rw [show 2*(x/2) = x by ring] at h
  exact h

/-- Cosine through the half angle. -/
theorem cos_half_double (x : ℝ) : Real.cos x = Real.cos (x/2)^2 - Real.sin (x/2)^2 := by
  have h := Real.cos_two_mul (x/2)
  rw [show 2*(x/2) = x by ring] at h
  linear_combination h + Real.sin_sq_add_cos_sq (x/2)

/-- Entry (2,0) of the rotation matrix of the RPY quaternion. -/
theorem m20_createQ (r p y : ℝ) :
    m20 (createQuaternionFromRPY r p y) = -Real.sin p := by
  simp only [m20, createQuaternionFromRPY]
  rw [sin_half_double p]
  linear_combination
    (-2 * Real.sin (p/2) * Real.cos (p/2) * (Real.sin (y/2)^2 + Real.cos (y/2)^2)) *
      Real.sin_sq_add_cos_sq (r/2) +
    (-2 * Real.sin (p/2) * Real.cos (p/2)) * Real.sin_sq_add_cos_sq (y/2)

/-- Entry (2,1) of the rotation matrix of the RPY quaternion. -/
theorem m21_createQ (r p y : ℝ) :
    m21 (createQuaternionFromRPY r p y) = Real.sin r * Real.cos p := by
  simp only [m21, createQuaternionFromRPY]
  rw [sin_half_double r, cos_half_double p]
  linear_combination
    (2 * Real.sin (r/2) * Real.cos (r/2) * (Real.cos (p/2)^2 - Real.sin (p/2)^2)) *
      Real.sin_sq_add_cos_sq (y/2)

/-- Entry (2,2) of the rotation matrix of the RPY quaternion. -/
theorem m22_createQ (r p y : ℝ) :
    m22 (createQuaternionFromRPY r p y) = Real.cos r * Real.cos p := by
  simp only [m22, createQuaternionFromRPY]
  rw [cos_half_double r, cos_half_double p]
  linear_combination
    (-2 * (Real.sin (r/2)^2 * Real.cos (p/2)^2 + Real.cos (r/2)^2 * Real.sin (p/2)^2)) *
      Real.sin_sq_add_cos_sq (y/2) +
    (-(Real.cos (p/2)^2 + Real.sin (p/2)^2)) * Real.sin_sq_add_cos_sq (r/2) +
    (-1) * Real.sin_sq_add_cos_sq (p/2)

/-- Entry (1,0) of the rotation matrix of the RPY quaternion. -/
theorem m10_createQ (r p y : ℝ) :
    m10 (createQuaternionFromRPY r p y) = Real.sin y * Real.cos p := by
  simp only [m10, createQuaternionFromRPY]
  rw [sin_half_double y, cos_half_double p]
  linear_combination
    (2 * Real.sin (y/2) * Real.cos (y/2) * (Real.cos (p/2)^2 - Real.sin (p/2)^2)) *
      Real.sin_sq_add_cos_sq (r/2)

/-- Entry (0,0) of the rotation matrix of the RPY quaternion. -/
theorem m00_createQ (r p y : ℝ) :
    m00 (createQuaternionFromRPY r p y) = Real.cos y * Real.cos p := by
  simp only [m00, createQuaternionFromRPY]
  rw [cos_half_double y, cos_half_double p]
  linear_combination
    (-2 * (Real.sin (y/2)^2 * Real.cos (p/2)^2 + Real.cos (y/2)^2 * Real.sin (p/2)^2)) *
      Real.sin_sq_add_cos_sq (r/2) +
    (-(Real.cos (p/2)^2 + Real.sin (p/2)^2)) * Real.sin_sq_add_cos_sq (y/2) +
    (-1) * Real.sin_sq_add_cos_sq (p/2)

/-- A common positive factor cancels in `atan2`. -/
theorem atan2_scale (s c a : ℝ) (ha : 0 < a) : atan2 (s * a) (c * a) = atan2 s c := by
  unfold atan2
  have h : ((c * a : ℝ) : ℂ) + (s * a : ℝ) * Complex.I =
      (a : ℝ) * ((c : ℝ) + (s : ℝ) * Complex.I) := by
    push_cast
    ring
  rw [h, Complex.arg_real_mul _ ha]

/-- `atan2` inverts sine/cosine on `(-π, π]`. -/
theorem atan2_sin_cos (r : ℝ) (h1 : -Real.pi < r) (h2 : r ≤ Real.pi) :
    atan2 (Real.sin r) (Real.cos r) = r := by
  unfold atan2
  rw [Complex.ofReal_cos, Complex.ofReal_sin]
  exact Complex.arg_cos_add_sin_mul_I ⟨h1, h2⟩

/-- The clamp is the identity on `[-1, 1]`. -/
theorem clampUnit_eq (t : ℝ) (h : |t| ≤ 1) : clampUnit t = t := by
  obtain ⟨ha, hb⟩ := abs_le.mp h
  rw [clampUnit, min_eq_right hb, max_eq_right ha]

/-- The standard extraction inverts the RPY quaternion constructor on the
canonical angle box: pitch strictly inside `(-π/2, π/2)`, roll and yaw in
`(-π, π]`. -/
theorem getRPY_createQuaternionFromRPY (r p y : ℝ)
    (hr1 : -Real.pi < r) (hr2 : r ≤ Real.pi)
    (hp1 : -(Real.pi/2) < p) (hp2 : p < Real.pi/2)
    (hy1 : -Real.pi < y) (hy2 : y ≤ Real.pi) :
    getRPY (createQuaternionFromRPY r p y) = ⟨r, p, y⟩ := by
  have hcp : 0 < Real.cos p := Real.cos_pos_of_mem_Ioo ⟨by linarith, hp2⟩
  have habs : |(-Real.sin p)| ≤ 1 := by
    rw [abs_neg]
    exact abs_le.mpr ⟨Real.neg_one_le_sin p, Real.sin_le_one p⟩
  have hpitch : -Real.arcsin (clampUnit (m20 (createQuaternionFromRPY r p y))) = p := by
    rw [m20_createQ, clampUnit_eq _ habs, Real.arcsin_neg, neg_neg,
      Real.arcsin_sin (by linarith) (by linarith)]
  have hroll : atan2 (m21 (createQuaternionFromRPY r p y))
      (m22 (createQuaternionFromRPY r p y)) = r := by
    rw [m21_createQ, m22_createQ, atan2_scale _ _ _ hcp, atan2_sin_cos r hr1 hr2]
  have hyaw : atan2 (m10 (createQuaternionFromRPY r p y))
      (m00 (createQuaternionFromRPY r p y)) = y := by
    rw [m10_createQ, m00_createQ, atan2_scale _ _ _ hcp, atan2_sin_cos y hy1 hy2]
  simp [getRPY, hpitch, hroll, hyaw]

/-- The inbound permutation undoes the outbound one. -/
theorem permIn_toOutput (rx ry rz : ℝ) :
    permIn (toOutput rx ry rz) = createQuaternionFromRPY rz (-rx) (-ry) := by
  simp [permIn, toOutput]

/-- The inbound adapter inverts the outbound adapter on the canonical angle
box. -/
theorem toInternal_toOutput (rx ry rz : ℝ)
    (h1 : -(Real.pi/2) < rx) (h2 : rx < Real.pi/2)
    (h3 : -Real.pi ≤ ry) (h4 : ry < Real.pi)
    (h5 : -Real.pi < rz) (h6 : rz ≤ Real.pi) :
    toInternal (toOutput rx ry rz) = (rx, ry, rz) := by
  have hrpy := getRPY_createQuaternionFromRPY rz (-rx) (-ry) h5 h6
    (by linarith) (by linarith) (by linarith) (by linarith)
  simp [toInternal, permIn_toOutput, hrpy]

/-- The inbound adapter does not see the quaternion's sign. -/
theorem toInternal_negQ (g : Quat) : toInternal (negQ g) = toInternal g := by
  have hperm : permIn (negQ g) = negQ (permIn g) := by simp [permIn, negQ]
  have e00 : m00 (negQ (permIn g)) = m00 (permIn g) := by simp [m00, negQ]
  have e10 : m10 (negQ (permIn g)) = m10 (permIn g) := by simp [m10, negQ]
  have e20 : m20 (negQ (permIn g)) = m20 (permIn g) := by simp [m20, negQ]
  have e21 : m21 (negQ (permIn g)) = m21 (permIn g) := by simp [m21, negQ]
  have e22 : m22 (negQ (permIn g)) = m22 (permIn g) := by simp [m22, negQ]
  simp [toInternal, getRPY, hperm, e00, e10, e20, e21, e22]

/-- `toOutput` at zero angles is the identity quaternion. -/
theorem toOutput_zero : toOutput 0 0 0 = ⟨0, 0, 0, 1⟩ := by
  simp [toOutput, createQuaternionFromRPY]

/-- The handler's angle computation is the spec's inbound adapter. -/
theorem laserOdometryHandlerAngles_eq (g : Quat) :
    laserOdometryHandlerAngles g = toInternal g := rfl

/-- The maintenance outbound quaternion is the spec's outbound adapter. -/
theorem maintOutputQuat_eq (rx ry rz : ℝ) :
    maintOutputQuat rx ry rz = toOutput rx ry rz := rfl

/-- The inverse of the identity rigid transform is the identity. -/
theorem rigidInverse_identity : rigidInverse rigidIdentity = rigidIdentity := by
  simp [rigidInverse, rigidIdentity, quatConj, rotateVec,
    m00, m01, m02, m10, m11, m12, m20, m21, m22]

/-- The identity rigid transform is a left unit for composition. -/
theorem rigidCompose_id_left (b : Rigid) : rigidCompose rigidIdentity b = b := by
  obtain ⟨⟨bx, bu, bz, bw⟩, ⟨q1, q2, q3⟩⟩ := b
  simp [rigidCompose, rigidIdentity, quatMul, rotateVec,
    m00, m01, m02, m10, m11, m12, m20, m21, m22]

/-- The internal angles extracted from a non-singular quaternion land in the
canonical box: first component in `(-π/2, π/2)`, second in `[-π, π)`, third
in `(-π, π]`. -/
theorem toInternal_mem_ranges (g : Quat) (hsing : |m20 (permIn g)| < 1) :
    (-(Real.pi/2) < (toInternal g).1 ∧ (toInternal g).1 < Real.pi/2) ∧
    (-Real.pi ≤ (toInternal g).2.1 ∧ (toInternal g).2.1 < Real.pi) ∧
    (-Real.pi < (toInternal g).2.2 ∧ (toInternal g).2.2 ≤ Real.pi) := by
  obtain ⟨hm1, hm2⟩ := abs_lt.mp hsing
  have hclamp : clampUnit (m20 (permIn g)) = m20 (permIn g) :=
    clampUnit_eq _ hsing.le
  have hx : (toInternal g).1 = Real.arcsin (m20 (permIn g)) := by
    simp [toInternal, getRPY, hclamp]
  have hyy : (toInternal g).2.1 = -(atan2 (m10 (permIn g)) (m00 (permIn g))) := by
    simp [toInternal, getRPY]
  have hz : (toInternal g).2.2 = atan2 (m21 (permIn g)) (m22 (permIn g)) := by
    simp [toInternal, getRPY]
  refine ⟨⟨?_, ?_⟩, ⟨?_, ?_⟩, ?_, ?_⟩
  · rw [hx]; exact Real.neg_pi_div_two_lt_arcsin.mpr hm1
  · rw [hx]; exact Real.arcsin_lt_pi_div_two.mpr hm2
  · rw [hyy]
    have := (Complex.arg_mem_Ioc ((m00 (permIn g) : ℂ) + m10 (permIn g) * Complex.I)).2
    unfold atan2
    linarith
  · rw [hyy]
    have := (Complex.arg_mem_Ioc ((m00 (permIn g) : ℂ) + m10 (permIn g) * Complex.I)).1
    unfold atan2
    linarith
  · rw [hz]
    exact (Complex.arg_mem_Ioc ((m22 (permIn g) : ℂ) + m21 (permIn g) * Complex.I)).1
  · rw [hz]
    exact (Complex.arg_mem_Ioc ((m22 (permIn g) : ℂ) + m21 (permIn g) * Complex.I)).2

/-! ## C1: the readiness predicate -/

/-- C1 (counterexample): the source's `hasNewData` is not the predicate the
claim states. `skewedState` has every flag set and every anchored difference
under 0.005 s, so `hasNewData` is true, but its sharp/less-sharp pairwise
difference is 0.008 s, so the claimed "max pairwise difference at most the
tolerance" predicate is false; `boundaryState` has maximum pairwise
difference exactly 0.005 s (so the claimed predicate is true) but
`hasNewData` is false because the source compares strictly. -/
theorem c1_counterexample :
    hasNewData skewedState = true ∧ specReadyPairwise skewedState = false ∧
    specReadyPairwise boundaryState = true ∧ hasNewData boundaryState = false := by
  refine ⟨?_, ?_, ?_, ?_⟩ <;>
    norm_num [hasNewData, specReadyPairwise, allFlagsSet, timesList,
      skewedState, boundaryState, gateState, abs]

/-- C1 (amended): `hasNewData` is true iff all six unconsumed flags are set
and each of the five non-reference timestamps differs from the
surf-points-less-flat reference timestamp by strictly less than the 0.005 s
tolerance; and clearing any single stream's flag makes it false. -/
theorem c1_hasNewData_characterization (s : OdomState) :
    (hasNewData s = true ↔
      (allFlagsSet s = true ∧
       |s.timeCornerPointsSharp - s.timeSurfPointsLessFlat| < 5/1000 ∧
       |s.timeCornerPointsLessSharp - s.timeSurfPointsLessFlat| < 5/1000 ∧
       |s.timeSurfPointsFlat - s.timeSurfPointsLessFlat| < 5/1000 ∧
       |s.timeLaserCloudFullRes - s.timeSurfPointsLessFlat| < 5/1000 ∧
       |s.timeImuTrans - s.timeSurfPointsLessFlat| < 5/1000)) ∧
    (∀ i : Fin 6, hasNewData (clearFlag i s) = false) := by
  constructor
  · simp only [hasNewData, allFlagsSet, Bool.and_eq_true, decide_eq_true_eq]
    tauto
  · intro i; fin_cases i <;> simp [hasNewData, clearFlag]

/-- C1 witness: the amended characterization evaluated at the
simultaneous-arrival state. -/
theorem c1_witness : hasNewData readyState = true :=
  (c1_hasNewData_characterization readyState).1.mpr
    (by norm_num [allFlagsSet, readyState, gateState])

/-! ## C2: the throttled publisher -/

/-- C2: `publishResult` always publishes the pose message, publishes each of
the three heavy clouds iff `ioRatio < 2 ∨ frameCount % ioRatio = 1`, and with
ratio 3 the heavy payloads go out exactly on the frame counts congruent to 1
mod 3 (1, 4, 7, … and not 2, 3, 5, 6, …). -/
theorem c2_publish_throttle (cfg : OdomConfig) (s : OdomState) :
    (publishResult cfg s).poseMsg = true ∧
    ((publishResult cfg s).cornerCloud = true ↔
      (cfg.ioRatioCfg < 2 ∨ s.frameCount % cfg.ioRatioCfg = 1)) ∧
    ((publishResult cfg s).surfCloud = true ↔
      (cfg.ioRatioCfg < 2 ∨ s.frameCount % cfg.ioRatioCfg = 1)) ∧
    ((publishResult cfg s).fullResCloud = true ↔
      (cfg.ioRatioCfg < 2 ∨ s.frameCount % cfg.ioRatioCfg = 1)) ∧
    (∀ n : ℕ, (publishResult (cfgR 3) (frameState n)).cornerCloud = true ↔ n % 3 = 1) := by
  refine ⟨rfl, ?_, ?_, ?_, ?_⟩ <;>
    simp [publishResult, cfgR, frameState]

/-- C2 witness: with ratio 3, frame 4 carries the heavy payloads. -/
theorem c2_witness : (publishResult (cfgR 3) (frameState 4)).cornerCloud = true :=
  ((c2_publish_throttle (cfgR 3) (frameState 4)).2.2.2.2 4).mpr (by norm_num)

/-! ## C7: consume atomicity -/

/-- C7: when the gate is ready, one processing cycle clears all six flags and
leaves the gate not ready; from any state in which stream `i`'s flag is
clear, the gate stays not ready across any event sequence containing no
arrival for stream `i`; and no event other than a processing tick ever clears
a set flag. -/
theorem c7_consume_atomicity (cfg : OdomConfig) (s : OdomState) :
    (hasNewData s = true →
      allFlagsClear ((process cfg s).1) = true ∧
      hasNewData ((process cfg s).1) = false) ∧
    (∀ (evs : List OdomEvent) (i : Fin 6),
      streamFlag i s = false →
      (∀ e ∈ evs, eventStream e ≠ some i) →
      hasNewData (runEvents cfg evs s) = false) ∧
    (∀ (e : OdomEvent) (i : Fin 6), e ≠ OdomEvent.tick →
      streamFlag i s = true → streamFlag i (stepEvent cfg e s) = true) := by
  refine ⟨?_, ?_, ?_⟩
  · intro h
    have h1 : (process cfg s).1 = basicOdomProcess (reset s) := by simp [process, h]
    rw [h1]
    exact ⟨by simp [allFlagsClear, basicOdomProcess, reset],
           by simp [hasNewData, basicOdomProcess, reset]⟩
  · intro evs
    induction evs generalizing s with
    | nil =>
      intro i h _
      exact hasNewData_eq_false_of_flag s i h
    | cons e tl ih =>
      intro i h hni
      have he : eventStream e ≠ some i := hni e (List.mem_cons_self e tl)
      have h2 := streamFlag_stepEvent_false cfg e i s h he
      have h3 : runEvents cfg (e :: tl) s = runEvents cfg tl (stepEvent cfg e s) := rfl
      rw [h3]
      exact ih (stepEvent cfg e s) i h2 (fun e' he' => hni e' (List.mem_cons_of_mem e he'))
  · intro e i he h
    cases e with
    | tick => exact absurd rfl he
    | arriveSharp t =>
      fin_cases i <;> simp_all [stepEvent, streamFlag, laserCloudSharpHandler]
    | arriveLessSharp t =>
      fin_cases i <;> simp_all [stepEvent, streamFlag, laserCloudLessSharpHandler]
    | arriveFlat t =>
      fin_cases i <;> simp_all [stepEvent, streamFlag, laserCloudFlatHandler]
    | arriveLessFlat t =>
      fin_cases i <;> simp_all [stepEvent, streamFlag, laserCloudLessFlatHandler]
    | arriveFullRes t =>
      fin_cases i <;> simp_all [stepEvent, streamFlag, laserCloudFullResHandler]
    | arriveImu t =>
      fin_cases i <;> simp_all [stepEvent, streamFlag, imuTransHandler]

/-- C7 witness: the three parts evaluated at concrete states and events. -/
theorem c7_witness :
    allFlagsClear ((process (cfgR 2) readyState).1) = true ∧
    hasNewData (runEvents (cfgR 2) [OdomEvent.arriveSharp 0]
      ((process (cfgR 2) readyState).1)) = false ∧
    streamFlag 1 (stepEvent (cfgR 2) (OdomEvent.arriveSharp 0) readyState) = true := by
  have hready : hasNewData readyState = true := by
    norm_num [hasNewData, readyState, gateState, abs]
  refine ⟨((c7_consume_atomicity (cfgR 2) readyState).1 hready).1, ?_, ?_⟩
  · refine (c7_consume_atomicity (cfgR 2) ((process (cfgR 2) readyState).1)).2.1
      [OdomEvent.arriveSharp 0] 1 ?_ ?_
    · have h1 : (process (cfgR 2) readyState).1 = basicOdomProcess (reset readyState) := by
        simp [process, hready]
      rw [h1]; rfl
    · intro e he'
      simp only [List.mem_singleton] at he'
      subst he'
      simp [eventStream]
  · exact (c7_consume_atomicity (cfgR 2) readyState).2.2 (OdomEvent.arriveSharp 0) 1
      (by simp) (by simp [streamFlag, readyState, gateState])

/-! ## C8: `LaserOdometry::setup` validation -/

/-- C8: `LaserOdometry::setup` succeeds iff every provided numeric parameter
is in range: `scanPeriod > 0`, `ioRatio ≥ 1`, `maxIterationsOdom ≥ 1`,
`deltaTAbortOdom > 0`, `deltaRAbortOdom > 0`; absent parameters are not
checked. -/
theorem c8_setup_validation (p : OdomParams) :
    odomSetup p = true ↔
      ((∀ v, p.scanPeriod = some v → 0 < v) ∧
       (∀ v, p.ioRatioParam = some v → 1 ≤ v) ∧
       (∀ v, p.maxIterationsOdom = some v → 1 ≤ v) ∧
       (∀ v, p.deltaTAbortOdom = some v → 0 < v) ∧
       (∀ v, p.deltaRAbortOdom = some v → 0 < v)) := by
  obtain ⟨sp, io, mx, dt, dr, _, _, _, _, _⟩ := p
  cases sp <;> cases io <;> cases mx <;> cases dt <;> cases dr <;>
    simp [odomSetup, not_le, not_lt] <;> tauto

/-- C8 witness: a fully in-range provided configuration is accepted. -/
theorem c8_witness :
    odomSetup { emptyOdomParams with
      scanPeriod := some (1/10), ioRatioParam := some 2,
      maxIterationsOdom := some 25, deltaTAbortOdom := some (1/10),
      deltaRAbortOdom := some (1/10) } = true :=
  (c8_setup_validation _).mpr (by norm_num [emptyOdomParams])

/-! ## C9: the not-ready polling step is a no-op -/

/-- C9: if `hasNewData()` is false, `process` changes nothing and publishes
nothing. -/
theorem c9_process_skip (cfg : OdomConfig) (s : OdomState)
    (h : hasNewData s = false) :
    process cfg s = (s, none) := by
  simp [process, h]

/-- C9 witness: the skip evaluated at the no-arrivals state. -/
theorem c9_witness : process (cfgR 2) idleState = (idleState, none) :=
  c9_process_skip (cfgR 2) idleState (by simp [hasNewData, idleState])

/-! ## C10: `TransformMaintenance::setup` never fails -/

/-- C10: `TransformMaintenance::setup` performs no validation and returns
`true` for every configuration input. -/
theorem c10_maint_setup_true (p : MaintParams) : (maintSetup p).2 = true := rfl

/-- C10 witness: the default (all-absent) parameters are accepted. -/
theorem c10_witness : (maintSetup emptyMaintParams).2 = true :=
  c10_maint_setup_true emptyMaintParams

/-! ## C3: identity correction before any correction pair -/

/-- C3: with the zero-initialized correction baseline (before any
`odomAftMappedHandler` call), `laserOdometryHandler` emits the incoming pose
unchanged apart from the convention adaptation: the output position equals
the input position and the output quaternion is the documented axis
permutation round-trip of the input quaternion (away from the pitch
singularity). -/
theorem c3_identity_correction (g : Quat) (p : V3)
    (hsing : |m20 (permIn g)| < 1) :
    laserOdometryHandlerRun initMaintState g p = (roundTrip g, p) := by
  obtain ⟨⟨hx1, hx2⟩, ⟨hy1, hy2⟩, hz1, hz2⟩ := toInternal_mem_ranges g hsing
  have hback := toInternal_toOutput (toInternal g).1 (toInternal g).2.1 (toInternal g).2.2
    hx1 hx2 hy1 hy2 hz1 hz2
  have hmap : transformAssociateToMap
      (updateOdometryModel initMaintState
        (toInternal g).1 (toInternal g).2.1 (toInternal g).2.2 p) =
      ⟨toOutput (toInternal g).1 (toInternal g).2.1 (toInternal g).2.2, p⟩ := by
    simp only [transformAssociateToMap, updateOdometryModel, initMaintState]
    rw [rigidInverse_identity, rigidCompose_id_left, rigidCompose_id_left]
  simp only [laserOdometryHandlerRun, laserOdometryHandlerAngles_eq, hmap, hback,
    maintOutputQuat_eq, roundTrip]

/-- C3 witness: the identity orientation with position `(1, 2, 3)` passes
through untouched. -/
theorem c3_witness :
    laserOdometryHandlerRun initMaintState ⟨0, 0, 0, 1⟩ (1, 2, 3) =
      (roundTrip ⟨0, 0, 0, 1⟩, (1, 2, 3)) :=
  c3_identity_correction ⟨0, 0, 0, 1⟩ (1, 2, 3) (by norm_num [m20, permIn])

/-! ## C4: the convention round-trip -/

/-- C4 (counterexample): the round-trip is not the identity on every
non-singular unit quaternion. At `q = (0, 0, 0, -1)` — a unit quaternion away
from the pitch singularity — `toOutput (toInternal q)` returns `(0, 0, 0, 1) =
-q`, whose `w` component differs from the input by 2, far beyond the claimed
1e-9 tolerance. -/
theorem c4_counterexample :
    roundTrip ⟨0, 0, 0, -1⟩ = ⟨0, 0, 0, 1⟩ ∧
    |m20 (permIn ⟨0, 0, 0, -1⟩)| < 1 ∧
    ¬ |(roundTrip ⟨0, 0, 0, -1⟩).w - (Quat.mk 0 0 0 (-1)).w| ≤ 1e-9 := by
  have hq : Quat.mk 0 0 0 (-1) = negQ (toOutput 0 0 0) := by
    rw [toOutput_zero]
    simp [negQ]
  have h0 : toInternal (Quat.mk 0 0 0 (-1)) = (0, 0, 0) := by
    rw [hq, toInternal_negQ]
    exact toInternal_toOutput 0 0 0 (by linarith [Real.pi_pos]) (by linarith [Real.pi_pos])
      (by linarith [Real.pi_pos]) Real.pi_pos (by linarith [Real.pi_pos]) Real.pi_pos.le
  have hrt : roundTrip ⟨0, 0, 0, -1⟩ = ⟨0, 0, 0, 1⟩ := by
    simp only [roundTrip, h0]
    exact toOutput_zero
  refine ⟨hrt, by norm_num [m20, permIn], ?_⟩
  rw [hrt]
  norm_num

/-- C4 (amended): for every unit quaternion that is plus or minus the
outbound image of canonical internal angles (pitch-like component strictly
inside `(-π/2, π/2)`, the others in their principal ranges), the round-trip
`toOutput ∘ toInternal` returns the positive-sign representative exactly: it
fixes `toOutput rx ry rz` and maps its negation to the same value, so the
round-trip preserves the rotation and equals the input up to quaternion
sign. -/
theorem c4_roundtrip_amended (rx ry rz : ℝ)
    (h1 : -(Real.pi/2) < rx) (h2 : rx < Real.pi/2)
    (h3 : -Real.pi ≤ ry) (h4 : ry < Real.pi)
    (h5 : -Real.pi < rz) (h6 : rz ≤ Real.pi) :
    roundTrip (toOutput rx ry rz) = toOutput rx ry rz ∧
    roundTrip (negQ (toOutput rx ry rz)) = toOutput rx ry rz := by
  have key := toInternal_toOutput rx ry rz h1 h2 h3 h4 h5 h6
  constructor
  · simp only [roundTrip, key]
  · simp only [roundTrip, toInternal_negQ, key]

/-- C4 witness: the amended round-trip at zero angles. -/
theorem c4_witness :
    roundTrip (toOutput 0 0 0) = toOutput 0 0 0 ∧
    roundTrip (negQ (toOutput 0 0 0)) = toOutput 0 0 0 :=
  c4_roundtrip_amended 0 0 0 (by linarith [Real.pi_pos]) (by linarith [Real.pi_pos])
    (by linarith [Real.pi_pos]) Real.pi_pos (by linarith [Real.pi_pos]) Real.pi_pos.le

/-! ## C5: the inbound adapter rule -/

/-- C5: both pose-consuming entry points (`laserOdometryHandler` and
`odomAftMappedHandler`) compute their internal angles by exactly the
documented rule: permute the quaternion to `(qz, -qx, -qy, qw)`, extract
roll/pitch/yaw by the standard rotation-matrix-to-Euler formula, and return
`(rx, ry, rz) = (-pitch, -yaw, roll)` — the spec's `toInternal`. -/
theorem c5_inbound_rule (g : Quat) :
    laserOdometryHandlerAngles g =
      (-(getRPY (permIn g)).pitch, -(getRPY (permIn g)).yaw, (getRPY (permIn g)).roll) ∧
    odomAftMappedHandlerAngles g = laserOdometryHandlerAngles g ∧
    laserOdometryHandlerAngles g = toInternal g :=
  ⟨rfl, rfl, rfl⟩

/-- C5 witness: the rule evaluated at the identity quaternion. -/
theorem c5_witness :
    laserOdometryHandlerAngles ⟨0, 0, 0, 1⟩ = toInternal ⟨0, 0, 0, 1⟩ :=
  (c5_inbound_rule ⟨0, 0, 0, 1⟩).2.2

/-! ## C6: the outbound adapter rule -/

/-- C6: both publication sites (the corrected-pose publisher in
`TransformMaintenance` and the odometry publisher in `LaserOdometry`) build
the outbound quaternion by exactly the documented rule: construct the RPY
quaternion from `(rz, -rx, -ry)` and emit `(x, y, z, w) = (-qy, -qz, qx, qw)`
— the spec's `toOutput`. -/
theorem c6_outbound_rule (rx ry rz : ℝ) :
    maintOutputQuat rx ry rz =
      ⟨-(createQuaternionFromRPY rz (-rx) (-ry)).y,
       -(createQuaternionFromRPY rz (-rx) (-ry)).z,
       (createQuaternionFromRPY rz (-rx) (-ry)).x,
       (createQuaternionFromRPY rz (-rx) (-ry)).w⟩ ∧
    odometryOutputQuat rx ry rz = maintOutputQuat rx ry rz ∧
    maintOutputQuat rx ry rz = toOutput rx ry rz :=
  ⟨rfl, rfl, rfl⟩

/-- C6 witness: the rule evaluated at zero angles. -/
theorem c6_witness : maintOutputQuat 0 0 0 = toOutput 0 0 0 :=
  (c6_outbound_rule 0 0 0).2.2

end LoamVelodyne
